import Mathlib

/-!
Shallow embedding of the Godot-MCP bridge core: the framed-transport receive
loop, the command dispatcher and the session manager from
python/godot_connection.py, and the Meshy generation pollers from
python/tools/meshy_tools.py, together with theorems settling the
specification claims about them.

Bytes are modelled as lists of naturals, text as lists of characters, and
the Python standard-library boundary (bytes.decode, json.loads) is embedded
as executable Lean functions that follow the library semantics the code
relies on.
-/

/-- Left curly brace character, used when building JSON text. -/
def lbrace : Char := Char.ofNat 123

/-- Right curly brace character, used when building JSON text. -/
def rbrace : Char := Char.ofNat 125

/-- Strict UTF-8 decoding of a byte list, following Python bytes.decode with
the default strict error handler: continuation bytes must be in 0x80-0xBF,
overlong encodings, surrogates and code points above 0x10FFFF are rejected,
and a truncated trailing sequence is an error (returns none). -/
def utf8Decode : List Nat → Option (List Char)
  | [] => some []
  | b :: bs =>
    if b < 128 then
      (utf8Decode bs).map (fun cs => Char.ofNat b :: cs)
    else if b < 194 then none
    else if b < 224 then
      match bs with
      | b2 :: bs2 =>
        if 128 ≤ b2 ∧ b2 < 192 then
          (utf8Decode bs2).map (fun cs => Char.ofNat ((b - 192) * 64 + (b2 - 128)) :: cs)
        else none
      | [] => none
    else if b < 240 then
      match bs with
      | b2 :: b3 :: bs3 =>
        if (if b = 224 then 160 else 128) ≤ b2 ∧ b2 ≤ (if b = 237 then 159 else 191) ∧
            128 ≤ b3 ∧ b3 < 192 then
          (utf8Decode bs3).map
            (fun cs => Char.ofNat ((b - 224) * 4096 + (b2 - 128) * 64 + (b3 - 128)) :: cs)
        else none
      | _ => none
    else if b < 245 then
      match bs with
      | b2 :: b3 :: b4 :: bs4 =>
        if (if b = 240 then 144 else 128) ≤ b2 ∧ b2 ≤ (if b = 244 then 143 else 191) ∧
            128 ≤ b3 ∧ b3 < 192 ∧ 128 ≤ b4 ∧ b4 < 192 then
          (utf8Decode bs4).map
            (fun cs => Char.ofNat
              ((b - 240) * 262144 + (b2 - 128) * 4096 + (b3 - 128) * 64 + (b4 - 128)) :: cs)
        else none
      | _ => none
    else none

/-- Byte list of an ASCII string (every character below 128), used to build
concrete socket payloads in the theorems. -/
def asciiBytes (s : String) : List Nat := s.toList.map Char.toNat

/-- Whether a character is stripped by Python str.strip with no arguments.
The ASCII whitespace range, the information-separator range and NEL are
included; other Unicode space characters are omitted (they never occur in
the payloads the claims are about). -/
def pyIsSpace (c : Char) : Bool :=
  (9 ≤ c.toNat ∧ c.toNat ≤ 13) ∨ (28 ≤ c.toNat ∧ c.toNat ≤ 32) ∨ c.toNat = 133

/-- Python str.strip: drop leading and trailing whitespace. -/
def pyStrip (s : List Char) : List Char :=
  ((s.dropWhile pyIsSpace).reverse.dropWhile pyIsSpace).reverse

/-- Whether the first list is an initial segment of the second. -/
def listStartsWith : List Char → List Char → Bool
  | [], _ => true
  | _ :: _, [] => false
  | p :: ps, c :: cs => p = c && listStartsWith ps cs

/-- The liveness-probe literal checked by receive_full_response, line 67 of
godot_connection.py. -/
def pongLit : List Char :=
  ("\x7b\"status\":\"success\",\"result\":\x7b\"message\":\"pong\"").toList

/-- The fast-path pong test of receive_full_response, line 67:
decoded_data.strip().startswith(pong literal). -/
def pongFast (s : List Char) : Bool := listStartsWith pongLit (pyStrip s)

/-- A parsed JSON value as produced by Python json.loads. The numeric
constructor keeps the sign and the mantissa digits of the literal as an
integer; the program only ever uses numbers through Python truthiness, for
which only zeroness of the mantissa matters. -/
inductive JVal where
  | null
  | bool (b : Bool)
  | num (n : Int)
  | nan
  | infy (neg : Bool)
  | str (s : String)
  | arr (xs : List JVal)
  | obj (kvs : List (String × JVal))

/-- Python dict.get for an object built by json.loads: with duplicate keys
the last binding wins. -/
def dictGet (kvs : List (String × JVal)) (k : String) : Option JVal :=
  match kvs with
  | [] => none
  | (k1, v) :: rest =>
    match dictGet rest k with
    | some r => some r
    | none => if k1 = k then some v else none

/-- Python truthiness of a JSON value: None, False, zero, and empty
containers and strings are falsy. -/
def pyTruthy : JVal → Bool
  | .null => false
  | .bool b => b
  | .num n => n ≠ 0
  | .nan => true
  | .infy _ => true
  | .str s => s ≠ ""
  | .arr xs => !xs.isEmpty
  | .obj kvs => !kvs.isEmpty

/-- JSON whitespace skipped by json.loads: space, tab, newline, return. -/
def skipWs : List Char → List Char
  | [] => []
  | c :: cs => if c = ' ' ∨ c = '\t' ∨ c = '\n' ∨ c = '\r' then skipWs cs else c :: cs

/-- Value of a hexadecimal digit character. -/
def hexDigit (c : Char) : Option Nat :=
  if '0' ≤ c ∧ c ≤ '9' then some (c.toNat - 48)
  else if 'a' ≤ c ∧ c ≤ 'f' then some (c.toNat - 87)
  else if 'A' ≤ c ∧ c ≤ 'F' then some (c.toNat - 55)
  else none

/-- Four hexadecimal digits, as used by a JSON \u escape. -/
def parseHex4 : List Char → Option (Nat × List Char)
  | a :: b :: c :: d :: rest =>
    match hexDigit a, hexDigit b, hexDigit c, hexDigit d with
    | some x, some y, some z, some w => some (x * 4096 + y * 256 + z * 16 + w, rest)
    | _, _, _, _ => none
  | _ => none

/-- Body of a JSON string after the opening quote, per json.loads in strict
mode: raw control characters are rejected, the standard escapes are decoded,
and a \u surrogate pair is combined. A lone surrogate is kept by Python; the
model maps it through Char.ofNat, which is lossy there, a case no payload of
this program produces. -/
def parseStringBody : Nat → List Char → List Char → Option (String × List Char)
  | 0, _, _ => none
  | _, _, [] => none
  | f + 1, acc, c :: cs =>
    if c = '"' then some (String.mk acc.reverse, cs)
    else if c = '\\' then
      match cs with
      | [] => none
      | e :: es =>
        if e = '"' then parseStringBody f ('"' :: acc) es
        else if e = '\\' then parseStringBody f ('\\' :: acc) es
        else if e = '/' then parseStringBody f ('/' :: acc) es
        else if e = 'b' then parseStringBody f (Char.ofNat 8 :: acc) es
        else if e = 'f' then parseStringBody f (Char.ofNat 12 :: acc) es
        else if e = 'n' then parseStringBody f ('\n' :: acc) es
        else if e = 'r' then parseStringBody f ('\r' :: acc) es
        else if e = 't' then parseStringBody f ('\t' :: acc) es
        else if e = 'u' then
          match parseHex4 es with
          | none => none
          | some (n, r) =>
            if 55296 ≤ n ∧ n ≤ 56319 then
              match r with
              | u1 :: u2 :: r2 =>
                if u1 = '\\' ∧ u2 = 'u' then
                  match parseHex4 r2 with
                  | some (n2, r3) =>
                    if 56320 ≤ n2 ∧ n2 ≤ 57343 then
                      parseStringBody f
                        (Char.ofNat (65536 + (n - 55296) * 1024 + (n2 - 56320)) :: acc) r3
                    else parseStringBody f (Char.ofNat n :: acc) r
                  | none => parseStringBody f (Char.ofNat n :: acc) r
                else parseStringBody f (Char.ofNat n :: acc) r
              | _ => parseStringBody f (Char.ofNat n :: acc) r
            else parseStringBody f (Char.ofNat n :: acc) r
        else none
    else if c.toNat < 32 then none
    else parseStringBody f (c :: acc) cs

/-- Leading decimal digits of a character list, and the remainder. -/
def takeDigits : List Char → List Char × List Char
  | [] => ([], [])
  | c :: cs =>
    if c.isDigit then
      match takeDigits cs with
      | (d, r) => (c :: d, r)
    else ([], c :: cs)

/-- Digits to a natural number. -/
def digitsToNat (ds : List Char) : Nat :=
  ds.foldl (fun n c => n * 10 + (c.toNat - 48)) 0

/-- A JSON number literal after the optional sign, per the json.loads number
grammar: an integer part that is 0 or starts with a nonzero digit, an
optional fraction needing at least one digit, an optional exponent needing
at least one digit. Only the consumed characters are taken; a malformed
tail is left in place, as the scanner regex does. Returns the mantissa
digits (integer and fraction parts) and the remainder. -/
def parseNumTail (intD : List Char) (s : List Char) : List Char × List Char :=
  match s with
  | '.' :: r =>
    match takeDigits r with
    | ([], _) => (intD, s)
    | (fd, r2) =>
      match r2 with
      | e :: r3 =>
        if e = 'e' ∨ e = 'E' then
          match r3 with
          | sg :: r4 =>
            if sg = '+' ∨ sg = '-' then
              match takeDigits r4 with
              | ([], _) => (intD ++ fd, r2)
              | (_, r5) => (intD ++ fd, r5)
            else
              match takeDigits r3 with
              | ([], _) => (intD ++ fd, r2)
              | (_, r5) => (intD ++ fd, r5)
          | [] => (intD ++ fd, r2)
        else (intD ++ fd, r2)
      | [] => (intD ++ fd, r2)
  | e :: r3 =>
    if e = 'e' ∨ e = 'E' then
      match r3 with
      | sg :: r4 =>
        if sg = '+' ∨ sg = '-' then
          match takeDigits r4 with
          | ([], _) => (intD, s)
          | (_, r5) => (intD, r5)
        else
          match takeDigits r3 with
          | ([], _) => (intD, s)
          | (_, r5) => (intD, r5)
      | [] => (intD, s)
    else (intD, s)
  | [] => (intD, s)

/-- A JSON number per json.loads: optional minus sign, then the grammar of
parseNumTail. The stored integer applies the sign to the mantissa digits;
the exponent is dropped, which preserves Python truthiness for every
literal that does not underflow or overflow a double. -/
def parseNumber (s : List Char) : Option (JVal × List Char) :=
  let signed := match s with
    | '-' :: r => (true, r)
    | _ => (false, s)
  match signed.2 with
  | [] => none
  | d :: ds =>
    if d = '0' then
      match parseNumTail ['0'] ds with
      | (mant, rest) =>
        some (.num (if signed.1 then -(digitsToNat mant : Int) else (digitsToNat mant : Int)), rest)
    else if d.isDigit then
      match takeDigits (d :: ds) with
      | (intD, r1) =>
        match parseNumTail intD r1 with
        | (mant, rest) =>
          some (.num (if signed.1 then -(digitsToNat mant : Int) else (digitsToNat mant : Int)), rest)
    else none

mutual

/-- One JSON value starting at the head of the input (leading whitespace
already skipped), following the json.loads scanner: string, object, array,
null, true, false, NaN, Infinity, -Infinity, or a number. Returns the value
and the unconsumed remainder. The fuel argument only bounds recursion depth;
json_loads supplies more than any input can use. -/
def parseValue : Nat → List Char → Option (JVal × List Char)
  | 0, _ => none
  | _, [] => none
  | f + 1, c :: cs =>
    if c = '"' then
      match parseStringBody (cs.length + 1) [] cs with
      | some (str, rest) => some (.str str, rest)
      | none => none
    else if c = lbrace then
      match skipWs cs with
      | [] => none
      | d :: ds => if d = rbrace then some (.obj [], ds) else parseObjTail f [] (d :: ds)
    else if c = '[' then
      match skipWs cs with
      | [] => none
      | d :: ds => if d = ']' then some (.arr [], ds) else parseArrTail f [] (d :: ds)
    else if c = 'n' then
      match cs with
      | 'u' :: 'l' :: 'l' :: r => some (.null, r)
      | _ => none
    else if c = 't' then
      match cs with
      | 'r' :: 'u' :: 'e' :: r => some (.bool true, r)
      | _ => none
    else if c = 'f' then
      match cs with
      | 'a' :: 'l' :: 's' :: 'e' :: r => some (.bool false, r)
      | _ => none
    else if c = 'N' then
      match cs with
      | 'a' :: 'N' :: r => some (.nan, r)
      | _ => none
    else if c = 'I' then
      match cs with
      | 'n' :: 'f' :: 'i' :: 'n' :: 'i' :: 't' :: 'y' :: r => some (.infy false, r)
      | _ => none
    else if c = '-' then
      match cs with
      | 'I' :: 'n' :: 'f' :: 'i' :: 'n' :: 'i' :: 't' :: 'y' :: r => some (.infy true, r)
      | _ => parseNumber (c :: cs)
    else parseNumber (c :: cs)

/-- Members of a JSON object after the opening brace and whitespace, when
the object is not empty: a quoted key, a colon, a value, then a comma and
further members or the closing brace. -/
def parseObjTail : Nat → List (String × JVal) → List Char → Option (JVal × List Char)
  | 0, _, _ => none
  | _, _, [] => none
  | f + 1, acc, q :: qs =>
    if q = '"' then
      match parseStringBody (qs.length + 1) [] qs with
      | none => none
      | some (key, r1) =>
        match skipWs r1 with
        | ':' :: r3 =>
          match parseValue f (skipWs r3) with
          | none => none
          | some (v, r5) =>
            match skipWs r5 with
            | [] => none
            | ch :: r7 =>
              if ch = rbrace then some (.obj (acc ++ [(key, v)]), r7)
              else if ch = ',' then parseObjTail f (acc ++ [(key, v)]) (skipWs r7)
              else none
        | _ => none
    else none

/-- Items of a JSON array after the opening bracket and whitespace, when the
array is not empty: a value, then a comma and further items or the closing
bracket. -/
def parseArrTail : Nat → List JVal → List Char → Option (JVal × List Char)
  | 0, _, _ => none
  | f + 1, acc, s =>
    match parseValue f s with
    | none => none
    | some (v, r) =>
      match skipWs r with
      | [] => none
      | ch :: r2 =>
        if ch = ']' then some (.arr (acc ++ [v]), r2)
        else if ch = ',' then parseArrTail f (acc ++ [v]) (skipWs r2)
        else none

end

/-- Python json.loads on decoded text: skip leading whitespace, parse one
JSON value, require only whitespace after it. Returns none exactly where
json.loads raises json.JSONDecodeError. -/
def json_loads (s : List Char) : Option JVal :=
  let s1 := skipWs s
  match parseValue (2 * s1.length + 2) s1 with
  | some (v, rest) => if skipWs rest = [] then some v else none
  | none => none

/-- Outcome of receive_full_response (godot_connection.py lines 47-89). The
ok constructor carries the bytes of a return statement; noneRet is the
implicit None returned when the loop is left by break (peer closed after at
least one chunk) since no return follows the loop; the error constructors
are the raising exits. -/
inductive RecvResult where
  | ok (data : List Nat)
  | noneRet
  | errClosed
  | errTimeout
  | errDecode
deriving DecidableEq

/-- The receive loop of receive_full_response over a schedule of recv
results: each schedule entry is the byte chunk one sock.recv call yields,
an empty entry being a zero-byte read (peer closed); an exhausted schedule
stands for a peer that sends nothing more, which the blocking recv turns
into a socket timeout. After each nonempty chunk the accumulated bytes are
decoded (line 62, outside the inner try, so a decode failure propagates and
is re-raised by the outer handler), then the pong fast path is tried, then
a full JSON parse; only a JSON parse failure continues the loop. -/
def receiveLoop : List Nat → List (List Nat) → RecvResult
  | _, [] => .errTimeout
  | chunks, c :: rest =>
    if c.isEmpty then
      if chunks.isEmpty then .errClosed else .noneRet
    else
      match utf8Decode (chunks ++ c) with
      | none => .errDecode
      | some s =>
        if pongFast s then .ok (chunks ++ c)
        else if (json_loads s).isSome then .ok (chunks ++ c)
        else receiveLoop (chunks ++ c) rest

/-- receive_full_response on a schedule of recv results, starting from an
empty accumulation buffer. -/
def receive_full_response (schedule : List (List Nat)) : RecvResult :=
  receiveLoop [] schedule

/-- State of a GodotConnection as far as send_command observes it: the
socket handle, absent when disconnected. -/
structure SCState where
  sock : Option Unit
deriving DecidableEq

/-- Environment of one send_command call: the outcome of self.connect when
the handle is absent, the outcome of sock.sendall, and the recv schedule
consumed by receive_full_response. -/
structure SCEnv where
  connectOk : Bool
  sendOk : Bool
  schedule : List (List Nat)

/-- Failures send_command raises. notConnected is the ConnectionError of
line 95; connVerifyFailed carries the cause string wrapped by the ping
handler of lines 118-121; commFailure carries the cause string wrapped by
the generic handler of lines 151-154. -/
inductive SCErr where
  | notConnected
  | connVerifyFailed (cause : String)
  | commFailure (cause : String)
deriving DecidableEq

/-- The message of a raised send_command failure, showing how the wrapped
cause appears in the exception text. -/
def SCErr.message : SCErr → String
  | .notConnected => "Not connected to Godot"
  | .connVerifyFailed c => "Connection verification failed: " ++ c
  | .commFailure c => "Failed to communicate with Godot: " ++ c

/-- Message of the exception raised at line 56 of godot_connection.py. -/
def closedMsg : String := "Connection closed before receiving data"

/-- Message of the exception raised at line 86. -/
def timeoutMsg : String := "Timeout receiving Godot response"

/-- Stands for the text of the UnicodeDecodeError the bytes.decode of line
62 raises; the exact text is produced by the standard library. -/
def unicodeErrMsg : String := "utf-8 codec cannot decode data"

/-- Stands for the text of the json.JSONDecodeError raised by json.loads;
the exact text is produced by the standard library. -/
def jsonErrMsg : String := "Expecting value"

/-- Stands for the text of the OSError a failing sock.sendall raises. -/
def sendErrMsg : String := "send failed"

/-- Stands for the text of the AttributeError raised when .get is called on
a parsed response that is not a dict. -/
def attrErrMsg : String := "object has no attribute get"

/-- Message of the exception raised at line 132. -/
def emptyRespMsg : String := "Empty response from Godot"

/-- Message of the exception raised at line 138. -/
def invalidJsonMsg : String := "Invalid JSON response from Godot"

/-- Message of the ConnectionError raised at line 108. -/
def emptyPingMsg : String := "Empty ping response"

/-- Message of the ConnectionError raised at line 115. -/
def pingNotSuccessMsg : String := "Connection verification failed"

/-- Python == between an optional looked-up JSON value and a string
literal: true exactly when the value is that string. -/
def jIsStr : Option JVal → String → Bool
  | some (.str s), t => s = t
  | _, _ => false

/-- Rendering of a JSON value as the argument of str() when it becomes an
exception message; containers are abbreviated, which no claim depends on. -/
def pyStr : JVal → String
  | .null => "None"
  | .bool true => "True"
  | .bool false => "False"
  | .num n => toString n
  | .nan => "nan"
  | .infy true => "-inf"
  | .infy false => "inf"
  | .str s => s
  | .arr _ => "[...]"
  | .obj _ => "dict"

/-- The error message chosen at line 141 for a status error response:
response.get("error") or response.get("message", "Unknown Godot error").
The first get falls through when absent or falsy; the second falls back to
the default only when the key is absent. -/
def errorMessageOf (kvs : List (String × JVal)) : JVal :=
  let e := (dictGet kvs "error").getD JVal.null
  if pyTruthy e then e
  else
    match dictGet kvs "message" with
    | some m => m
    | none => JVal.str "Unknown Godot error"

/-- The ping branch of send_command (lines 98-121): send the ping envelope,
receive one framed response, require a truthy parsed mapping whose status
is the string success; every failure clears the socket handle and raises a
ConnectionError wrapping the cause, because every raise in this branch is
inside the try whose handler does so. -/
def pingExchange (env : SCEnv) : SCState × Except SCErr JVal :=
  if !env.sendOk then (⟨none⟩, .error (.connVerifyFailed sendErrMsg))
  else
    match receive_full_response env.schedule with
    | .errClosed => (⟨none⟩, .error (.connVerifyFailed closedMsg))
    | .errTimeout => (⟨none⟩, .error (.connVerifyFailed timeoutMsg))
    | .errDecode => (⟨none⟩, .error (.connVerifyFailed unicodeErrMsg))
    | .noneRet => (⟨none⟩, .error (.connVerifyFailed emptyPingMsg))
    | .ok data =>
      match utf8Decode data with
      | none => (⟨none⟩, .error (.connVerifyFailed unicodeErrMsg))
      | some s =>
        match json_loads s with
        | none => (⟨none⟩, .error (.connVerifyFailed jsonErrMsg))
        | some v =>
          if !pyTruthy v then (⟨none⟩, .error (.connVerifyFailed pingNotSuccessMsg))
          else
            match v with
            | .obj kvs =>
              if jIsStr (dictGet kvs "status") "success" then
                (⟨some ()⟩, .ok (JVal.obj [("message", JVal.str "pong")]))
              else (⟨none⟩, .error (.connVerifyFailed pingNotSuccessMsg))
            | _ => (⟨none⟩, .error (.connVerifyFailed attrErrMsg))

/-- The generic branch of send_command (lines 124-154): send the command
envelope, receive one framed response, parse it, classify the mapping;
every failure clears the socket handle and raises the communication
failure of line 154 wrapping the cause. The None return of the receive is
falsy, so it is reported as an empty response; a parsed falsy value is
reported as an invalid JSON response; a status of error raises the chosen
error message; a missing or null result field yields an empty mapping. -/
def normalExchange (env : SCEnv) : SCState × Except SCErr JVal :=
  if !env.sendOk then (⟨none⟩, .error (.commFailure sendErrMsg))
  else
    match receive_full_response env.schedule with
    | .errClosed => (⟨none⟩, .error (.commFailure closedMsg))
    | .errTimeout => (⟨none⟩, .error (.commFailure timeoutMsg))
    | .errDecode => (⟨none⟩, .error (.commFailure unicodeErrMsg))
    | .noneRet => (⟨none⟩, .error (.commFailure emptyRespMsg))
    | .ok data =>
      match utf8Decode data with
      | none => (⟨none⟩, .error (.commFailure unicodeErrMsg))
      | some s =>
        match json_loads s with
        | none => (⟨none⟩, .error (.commFailure jsonErrMsg))
        | some v =>
          if !pyTruthy v then (⟨none⟩, .error (.commFailure invalidJsonMsg))
          else
            match v with
            | .obj kvs =>
              if jIsStr (dictGet kvs "status") "error" then
                (⟨none⟩, .error (.commFailure (pyStr (errorMessageOf kvs))))
              else
                match dictGet kvs "result" with
                | none => (⟨some ()⟩, .ok (JVal.obj []))
                | some .null => (⟨some ()⟩, .ok (JVal.obj []))
                | some r => (⟨some ()⟩, .ok r)
            | _ => (⟨none⟩, .error (.commFailure attrErrMsg))

/-- send_command (godot_connection.py lines 92-154): connect when the
handle is absent, then run the ping branch or the generic branch. Returns
the final connection state and the result or raised failure. -/
def send_command (st : SCState) (commandType : String) (env : SCEnv) :
    SCState × Except SCErr JVal :=
  if st.sock.isNone && !env.connectOk then (⟨none⟩, .error .notConnected)
  else if commandType = "ping" then pingExchange env
  else normalExchange env

/-- Environment of one get_godot_connection call: the send_command
environment used for the probe on the cached connection, the outcome of
connect on a freshly built connection, and the send_command environment
used for the probe on it. -/
structure GGEnv where
  cachedEnv : SCEnv
  newConnectOk : Bool
  newEnv : SCEnv

/-- Failures get_godot_connection raises: the ConnectionError of line 182
when connect fails, and the ConnectionError of line 196 wrapping the cause
when the fresh probe fails. -/
inductive GGErr where
  | couldNotConnect
  | couldNotVerify (cause : String)
deriving DecidableEq

/-- The fresh-connection half of get_godot_connection (lines 177-196):
build a connection, connect, probe it with ping; a connect failure or a
failed probe clears the global and raises, a successful probe caches and
returns the connection. -/
def freshConnection (env : GGEnv) : Option SCState × Except GGErr SCState :=
  if !env.newConnectOk then (none, .error .couldNotConnect)
  else
    match send_command ⟨some ()⟩ "ping" env.newEnv with
    | (c2, .ok _) => (some c2, .ok c2)
    | (_, .error e) => (none, .error (.couldNotVerify e.message))

/-- get_godot_connection (lines 159-196) over the cached global connection
state: probe a cached connection and return it on success; on a failed
probe discard it (best-effort disconnect, swallow errors) and fall through
to building and probing a fresh one. Returns the new global state and the
result. -/
def get_godot_connection (cached : Option SCState) (env : GGEnv) :
    Option SCState × Except GGErr SCState :=
  match cached with
  | some c =>
    match send_command c "ping" env.cachedEnv with
    | (c2, .ok _) => (some c2, .ok c2)
    | (_, .error _) => freshConnection env
  | none => freshConnection env

/-- config.meshy_timeout (config.py line 46), the generation poll ceiling
in seconds. -/
def meshy_timeout : Nat := 300

/-- The creation response of a Meshy task: the HTTP status code and the
task identifier of the result field, absent when the field is missing. -/
structure CreateResp where
  httpStatus : Nat
  result : Option String

/-- One poll response of a Meshy task: the HTTP status code, the status
field, the model_urls mapping (empty when the field is missing, as
.get with a default of an empty dict produces), and the message inside
task_error when present. -/
structure PollResp where
  httpStatus : Nat
  status : Option String
  modelUrls : List (String × String)
  taskErrorMsg : Option String

/-- Python dict.get on a string-valued mapping, last binding winning. -/
def lookupStr (kvs : List (String × String)) (k : String) : Option String :=
  match kvs with
  | [] => none
  | (k1, v) :: rest =>
    match lookupStr rest k with
    | some r => some r
    | none => if k1 = k then some v else none

/-- Python or between two optional strings: the first operand unless it is
absent or empty (falsy). -/
def pyOrS (a b : Option String) : Option String :=
  match a with
  | none => b
  | some s => if s = "" then b else some s

/-- The download-artifact choice of the SUCCEEDED branches:
model_urls.get("glb") or model_urls.get("fbx") or model_urls.get("obj"). -/
def chooseUrl (urls : List (String × String)) : Option String :=
  pyOrS (lookupStr urls "glb") (pyOrS (lookupStr urls "fbx") (lookupStr urls "obj"))

/-- Whether Python if not config.meshy_api_key takes the error return. -/
def apiKeyFalsy : Option String → Bool
  | none => true
  | some s => s = ""

/-- Outcome of a Meshy tool invocation. Each constructor stands for one
return statement of the source: noApiKey for the missing-key return,
networkError for the RequestException handler reached through
raise_for_status, createHttpError and pollHttpError for the explicit
status-code checks, noTaskId for the missing-task-id return, success for
the completed-download path carrying the chosen URL (the import step is
outside this model), noModelUrls and noSupportedFormat for the two
no-usable-artifact returns, genFailed for the FAILED branch, unknownStatus
for the unrecognized-status return and timeout for the fall-through after
the loop. -/
inductive MeshyOutcome where
  | noApiKey
  | networkError (code : Nat)
  | createHttpError (code : Nat)
  | noTaskId
  | pollHttpError (code : Nat)
  | success (url : String)
  | noModelUrls
  | noSupportedFormat
  | genFailed (msg : String)
  | unknownStatus (s : Option String)
  | timeout (maxWait : Nat)
deriving DecidableEq

/-- The poll loop of generate_mesh_from_text (meshy_tools.py lines
103-163): while elapsed is below the ceiling, fetch the status (a non-2xx
code raises through raise_for_status into the network-error handler),
finish on SUCCEEDED with the prioritized artifact choice after requiring a
nonempty model_urls, finish on FAILED or an unrecognized status, and on
PENDING or IN_PROGRESS sleep five seconds and add them to elapsed; when
elapsed reaches the ceiling the loop exits with the timeout return. The
argument i counts issued polls and indexes the schedule. -/
def textPollLoop (polls : Nat → PollResp) (maxWait i elapsed : Nat) : MeshyOutcome :=
  if _h : elapsed < maxWait then
    let r := polls i
    if 400 ≤ r.httpStatus then .networkError r.httpStatus
    else
      match r.status with
      | some "SUCCEEDED" =>
        if r.modelUrls.isEmpty then .noModelUrls
        else
          match chooseUrl r.modelUrls with
          | none => .noSupportedFormat
          | some u => if u = "" then .noSupportedFormat else .success u
      | some "FAILED" => .genFailed (r.taskErrorMsg.getD "Unknown error")
      | some "PENDING" => textPollLoop polls maxWait (i + 1) (elapsed + 5)
      | some "IN_PROGRESS" => textPollLoop polls maxWait (i + 1) (elapsed + 5)
      | s => .unknownStatus s
  else .timeout maxWait
termination_by maxWait - elapsed
decreasing_by all_goals omega

/-- The poll loop of generate_mesh_from_image (lines 234-280): as the text
loop, but a poll whose HTTP code is not 200 returns an explicit
status-check error, and the interval is fifteen seconds. -/
def imagePollLoop (polls : Nat → PollResp) (maxWait i elapsed : Nat) : MeshyOutcome :=
  if _h : elapsed < maxWait then
    let r := polls i
    if r.httpStatus ≠ 200 then .pollHttpError r.httpStatus
    else
      match r.status with
      | some "SUCCEEDED" =>
        if r.modelUrls.isEmpty then .noModelUrls
        else
          match chooseUrl r.modelUrls with
          | none => .noSupportedFormat
          | some u => if u = "" then .noSupportedFormat else .success u
      | some "FAILED" => .genFailed (r.taskErrorMsg.getD "Unknown error")
      | some "PENDING" => imagePollLoop polls maxWait (i + 1) (elapsed + 15)
      | some "IN_PROGRESS" => imagePollLoop polls maxWait (i + 1) (elapsed + 15)
      | s => .unknownStatus s
  else .timeout maxWait
termination_by maxWait - elapsed
decreasing_by all_goals omega

/-- The poll loop of refine_generated_mesh (lines 420-469): as the image
loop but with a twenty-second interval, and the SUCCEEDED branch goes
straight to the artifact choice with no nonempty check on model_urls. -/
def refinePollLoop (polls : Nat → PollResp) (maxWait i elapsed : Nat) : MeshyOutcome :=
  if _h : elapsed < maxWait then
    let r := polls i
    if r.httpStatus ≠ 200 then .pollHttpError r.httpStatus
    else
      match r.status with
      | some "SUCCEEDED" =>
        match chooseUrl r.modelUrls with
        | none => .noSupportedFormat
        | some u => if u = "" then .noSupportedFormat else .success u
      | some "FAILED" => .genFailed (r.taskErrorMsg.getD "Unknown error")
      | some "PENDING" => refinePollLoop polls maxWait (i + 1) (elapsed + 20)
      | some "IN_PROGRESS" => refinePollLoop polls maxWait (i + 1) (elapsed + 20)
      | s => .unknownStatus s
  else .timeout maxWait
termination_by maxWait - elapsed
decreasing_by all_goals omega

/-- generate_mesh_from_text (lines 19-168): require an API key, create the
task (raise_for_status turns a non-2xx code into the network-error
handler), require a truthy task identifier, then poll with the configured
ceiling. -/
def generate_mesh_from_text (apiKey : Option String) (create : CreateResp)
    (polls : Nat → PollResp) : MeshyOutcome :=
  if apiKeyFalsy apiKey then .noApiKey
  else if 400 ≤ create.httpStatus then .networkError create.httpStatus
  else
    match create.result with
    | none => .noTaskId
    | some tid => if tid = "" then .noTaskId else textPollLoop polls meshy_timeout 0 0

/-- generate_mesh_from_image (lines 171-283): require an API key, create
the task with an explicit 200-or-202 check, require a truthy task
identifier, then poll with the configured ceiling. -/
def generate_mesh_from_image (apiKey : Option String) (create : CreateResp)
    (polls : Nat → PollResp) : MeshyOutcome :=
  if apiKeyFalsy apiKey then .noApiKey
  else if !(create.httpStatus = 200 || create.httpStatus = 202) then
    .createHttpError create.httpStatus
  else
    match create.result with
    | none => .noTaskId
    | some tid => if tid = "" then .noTaskId else imagePollLoop polls meshy_timeout 0 0

/-- refine_generated_mesh (lines 358-472): require an API key, create the
refinement task with an explicit 200-or-202 check, read the task
identifier of the result field without any missing-id check (line 411 has
no counterpart of the checks at lines 91 and 224), then poll with double
the configured ceiling. -/
def refine_generated_mesh (apiKey : Option String) (create : CreateResp)
    (polls : Nat → PollResp) : MeshyOutcome :=
  if apiKeyFalsy apiKey then .noApiKey
  else if !(create.httpStatus = 200 || create.httpStatus = 202) then
    .createHttpError create.httpStatus
  else refinePollLoop polls (meshy_timeout * 2) 0 0

/-- Every byte return of the receive loop happened on an accumulation
buffer that decodes as UTF-8 and either parses as one JSON value or passes
the pong fast-path test. -/
theorem receiveLoop_ok_decodes :
    ∀ (schedule : List (List Nat)) (chunks data : List Nat),
      receiveLoop chunks schedule = .ok data →
      ∃ s, utf8Decode data = some s ∧
        ((json_loads s).isSome = true ∨ pongFast s = true) := by
  intro schedule
  induction schedule with
  | nil =>
    intro chunks data h
    simp [receiveLoop] at h
  | cons c rest ih =>
    intro chunks data h
    simp only [receiveLoop] at h
    by_cases hc : c.isEmpty
    · simp only [hc, if_pos] at h
      by_cases h2 : chunks.isEmpty
      · simp only [h2, if_pos] at h; cases h
      · simp only [h2, if_neg, Bool.false_eq_true, ite_false] at h; cases h
    · simp only [hc, Bool.false_eq_true, ite_false] at h
      cases hd : utf8Decode (chunks ++ c) with
      | none => simp only [hd] at h; cases h
      | some s =>
        simp only [hd] at h
        by_cases hp : pongFast s
        · simp only [hp, if_pos] at h
          cases h
          exact ⟨s, hd, Or.inr hp⟩
        · simp only [hp, Bool.false_eq_true, ite_false] at h
          by_cases hj : (json_loads s).isSome
          · simp only [hj, if_pos] at h
            cases h
            exact ⟨s, hd, Or.inl hj⟩
          · simp only [hj, Bool.false_eq_true, ite_false] at h
            exact ih _ _ h

/-- The bytes of the pong fast-path literal alone, as a one-chunk recv
schedule: a peer reply cut off right after the literal. -/
def pongPrefixBytes : List Nat := asciiBytes "\x7b\"status\":\"success\",\"result\":\x7b\"message\":\"pong\""

/-- C1 counterexample: on a single chunk holding exactly the pong literal,
receive_full_response returns the bytes through the fast path, yet they are
not a well-formed JSON value (json.loads fails on them), refuting the claim
that every successful return decodes to exactly one well-formed JSON
value. -/
theorem C1_counterexample :
    receive_full_response [pongPrefixBytes] = .ok pongPrefixBytes ∧
    utf8Decode pongPrefixBytes = some pongLit ∧
    json_loads pongLit = none :=
  ⟨by decide, rfl, rfl⟩

/-- C1 amended: every byte return of receive_full_response decodes as
UTF-8 and either parses as one well-formed JSON value or begins, after
stripping whitespace, with the pong literal; the close-after-chunks path
returns no bytes at all (None). -/
theorem C1_amended_ok_utf8_json_or_pong :
    ∀ (schedule : List (List Nat)) (data : List Nat),
      receive_full_response schedule = .ok data →
      ∃ s, utf8Decode data = some s ∧
        ((json_loads s).isSome = true ∨ pongFast s = true) := by
  intro schedule data h
  exact receiveLoop_ok_decodes schedule [] data h

/-- C1 witness: the amended theorem applied to a one-chunk schedule
carrying a small complete JSON object. -/
theorem C1_amended_witness :
    ∃ s, utf8Decode (asciiBytes "\x7b\"a\":1\x7d") = some s ∧
      ((json_loads s).isSome = true ∨ pongFast s = true) :=
  C1_amended_ok_utf8_json_or_pong [asciiBytes "\x7b\"a\":1\x7d"] (asciiBytes "\x7b\"a\":1\x7d") (by decide)

/-- C2: a two-byte UTF-8 character split across a chunk boundary makes the
receive raise. The first chunk ends in the lead byte 0xC3 of a two-byte
character; the decode of line 62 sits outside the inner try, so the
UnicodeDecodeError propagates and the outer handler re-raises it, instead
of the loop continuing; the same bytes in one chunk are received fine. -/
theorem C2_split_multibyte_raises :
    receive_full_response [asciiBytes "\x7b\"a\":\"" ++ [195], [169] ++ asciiBytes "\"\x7d"] =
      .errDecode ∧
    receive_full_response [asciiBytes "\x7b\"a\":\"" ++ [195, 169] ++ asciiBytes "\"\x7d"] =
      .ok (asciiBytes "\x7b\"a\":\"" ++ [195, 169] ++ asciiBytes "\"\x7d") :=
  ⟨by decide, by decide⟩

/-- C5: a zero-byte first read raises the premature-close failure, but a
zero-byte read after one accumulated chunk leaves the loop by break and
falls off the function, returning None rather than the accumulated
bytes (no return statement follows the loop). -/
theorem C5_close_paths :
    receive_full_response [[]] = .errClosed ∧
    receive_full_response [[65], []] = .noneRet :=
  ⟨by decide, by decide⟩


/-- Every run of the ping branch either succeeds with the fixed pong
acknowledgement and the handle kept, or clears the handle and raises a
connection-verification failure wrapping some cause. -/
theorem pingExchange_cases (env : SCEnv) :
    pingExchange env = (⟨some ()⟩, .ok (JVal.obj [("message", JVal.str "pong")])) ∨
    ∃ c, pingExchange env = (⟨none⟩, .error (.connVerifyFailed c)) := by
  unfold pingExchange
  repeat' split
  all_goals first
    | exact Or.inl rfl
    | exact Or.inr ⟨_, rfl⟩

/-- Every run of the generic branch either succeeds with some result and
the handle kept, or clears the handle and raises a communication failure
wrapping some cause. -/
theorem normalExchange_cases (env : SCEnv) :
    (∃ r, normalExchange env = (⟨some ()⟩, .ok r)) ∨
    ∃ c, normalExchange env = (⟨none⟩, .error (.commFailure c)) := by
  unfold normalExchange
  repeat' split
  all_goals first
    | exact Or.inl ⟨_, rfl⟩
    | exact Or.inr ⟨_, rfl⟩

/-- C4: whenever send_command raises after a connection exists (the handle
was present, or connect succeeded inside the call), the final state has no
socket handle, and the raised failure is one of the two wrapping
constructors, whose message text appends the original cause. -/
theorem C4_raise_clears_socket :
    ∀ (st : SCState) (cmd : String) (env : SCEnv) (st2 : SCState) (e : SCErr),
      st.sock = some () ∨ env.connectOk = true →
      send_command st cmd env = (st2, .error e) →
      st2.sock = none ∧
        ∃ c, (e = .connVerifyFailed c ∧
                e.message = "Connection verification failed: " ++ c) ∨
             (e = .commFailure c ∧
                e.message = "Failed to communicate with Godot: " ++ c) := by
  intro st cmd env st2 e hconn h
  unfold send_command at h
  have hcond : (st.sock.isNone && !env.connectOk) = false := by
    rcases hconn with h1 | h1 <;> simp [h1]
  rw [hcond] at h
  simp only [Bool.false_eq_true, if_false] at h
  by_cases hping : cmd = "ping"
  · rw [if_pos hping] at h
    rcases pingExchange_cases env with hc | ⟨c, hc⟩
    · rw [hc] at h
      injection h with h1 h2
      cases h2
    · rw [hc] at h
      injection h with h1 h2
      subst h1
      injection h2 with h3
      subst h3
      exact ⟨rfl, c, Or.inl ⟨rfl, rfl⟩⟩
  · rw [if_neg hping] at h
    rcases normalExchange_cases env with ⟨r, hc⟩ | ⟨c, hc⟩
    · rw [hc] at h
      injection h with h1 h2
      cases h2
    · rw [hc] at h
      injection h with h1 h2
      subst h1
      injection h2 with h3
      subst h3
      exact ⟨rfl, c, Or.inr ⟨rfl, rfl⟩⟩

/-- C4 witness: a failing sendall on an existing connection clears the
handle and raises the wrapped communication failure. -/
theorem C4_witness :
    (SCState.mk none).sock = none ∧
      ∃ c, (SCErr.commFailure sendErrMsg = .connVerifyFailed c ∧
              (SCErr.commFailure sendErrMsg).message =
                "Connection verification failed: " ++ c) ∨
           (SCErr.commFailure sendErrMsg = .commFailure c ∧
              (SCErr.commFailure sendErrMsg).message =
                "Failed to communicate with Godot: " ++ c) :=
  C4_raise_clears_socket ⟨some ()⟩ "GET_SCENE_INFO" ⟨true, false, []⟩ ⟨none⟩
    (.commFailure sendErrMsg) (Or.inl rfl) rfl

/-- When freshConnection returns a connection, connect succeeded and the
probe on the fresh connection returned successfully, and the returned
connection is the probe's final state. -/
theorem freshConnection_ok (env : GGEnv) (glob : Option SCState) (conn : SCState)
    (h : freshConnection env = (glob, .ok conn)) :
    env.newConnectOk = true ∧
      (∃ r, (send_command ⟨some ()⟩ "ping" env.newEnv).2 = .ok r) ∧
      conn = (send_command ⟨some ()⟩ "ping" env.newEnv).1 := by
  unfold freshConnection at h
  by_cases hco : env.newConnectOk
  · simp only [hco, Bool.not_true, Bool.false_eq_true, if_false] at h
    cases hsc : send_command ⟨some ()⟩ "ping" env.newEnv with
    | mk c2 res =>
      cases res with
      | ok r =>
        simp only [hsc] at h
        injection h with h1 h2
        injection h2 with h3
        exact ⟨hco, ⟨r, rfl⟩, h3.symm⟩
      | error e =>
        simp only [hsc] at h
        injection h with h1 h2
        cases h2
  · simp [hco] at h

/-- Unfolding of get_godot_connection on a cached connection. -/
theorem get_godot_connection_some (c : SCState) (env : GGEnv) :
    get_godot_connection (some c) env =
      (match send_command c "ping" env.cachedEnv with
       | (c2, .ok _) => (some c2, .ok c2)
       | (_, .error _) => freshConnection env) := rfl

/-- C3: whenever the session acquire returns a connection, a ping probe
issued inside that very call returned successfully, and the returned
connection is the post-probe state: either the probe on the cached
connection, or the probe on the freshly connected one. A fresh connection
whose probe fails cannot be returned. -/
theorem C3_acquire_requires_probe :
    ∀ (cached : Option SCState) (env : GGEnv) (glob : Option SCState) (conn : SCState),
      get_godot_connection cached env = (glob, .ok conn) →
      (∃ c, cached = some c ∧
          (∃ r, (send_command c "ping" env.cachedEnv).2 = .ok r) ∧
          conn = (send_command c "ping" env.cachedEnv).1) ∨
      (env.newConnectOk = true ∧
          (∃ r, (send_command ⟨some ()⟩ "ping" env.newEnv).2 = .ok r) ∧
          conn = (send_command ⟨some ()⟩ "ping" env.newEnv).1) := by
  intro cached env glob conn h
  cases cached with
  | none => exact Or.inr (freshConnection_ok env glob conn h)
  | some c =>
    rw [get_godot_connection_some] at h
    cases hsc : send_command c "ping" env.cachedEnv with
    | mk c2 res =>
      cases res with
      | ok r =>
        simp only [hsc] at h
        injection h with h1 h2
        injection h2 with h3
        exact Or.inl ⟨c, rfl, ⟨r, by rw [hsc]⟩, by rw [hsc]; exact h3.symm⟩
      | error e =>
        simp only [hsc] at h
        exact Or.inr (freshConnection_ok env glob conn h)

/-- Recv schedule entry carrying one complete successful pong reply. -/
def pongRespBytes : List Nat :=
  asciiBytes "\x7b\"status\":\"success\",\"result\":\x7b\"message\":\"pong\"\x7d\x7d"

/-- C3 witness: with no cached connection, a working connect and a peer
answering the probe with a pong reply, acquire returns the probed fresh
connection. -/
theorem C3_witness :
    (∃ c, (none : Option SCState) = some c ∧
        (∃ r, (send_command c "ping" (SCEnv.mk true true [])).2 = .ok r) ∧
        (SCState.mk (some ())) = (send_command c "ping" (SCEnv.mk true true [])).1) ∨
    ((GGEnv.mk ⟨true, true, []⟩ true ⟨true, true, [pongRespBytes]⟩).newConnectOk = true ∧
        (∃ r, (send_command ⟨some ()⟩ "ping"
            (GGEnv.mk ⟨true, true, []⟩ true ⟨true, true, [pongRespBytes]⟩).newEnv).2 = .ok r) ∧
        (SCState.mk (some ())) = (send_command ⟨some ()⟩ "ping"
            (GGEnv.mk ⟨true, true, []⟩ true ⟨true, true, [pongRespBytes]⟩).newEnv).1) :=
  C3_acquire_requires_probe none (GGEnv.mk ⟨true, true, []⟩ true ⟨true, true, [pongRespBytes]⟩)
    (some ⟨some ()⟩) ⟨some ()⟩ rfl

/-- A non-ping send_command with the handle present runs the generic
branch. -/
theorem send_command_normal (st : SCState) (cmd : String) (env : SCEnv)
    (hc : cmd ≠ "ping") (hs : st.sock = some ()) :
    send_command st cmd env = normalExchange env := by
  unfold send_command
  rw [hs]
  simp [hc]

/-- Evaluation of the generic branch once the send succeeded and the framed
receive produced bytes that decode and parse: what remains is the
classification of the parsed value. -/
theorem normalExchange_eval (env : SCEnv) (data : List Nat) (s : List Char) (v : JVal)
    (hsend : env.sendOk = true) (hrecv : receive_full_response env.schedule = .ok data)
    (hdec : utf8Decode data = some s) (hparse : json_loads s = some v) :
    normalExchange env =
      (if !pyTruthy v then ((⟨none⟩ : SCState), .error (.commFailure invalidJsonMsg))
       else
        match v with
        | .obj kvs =>
          if jIsStr (dictGet kvs "status") "error" then
            (⟨none⟩, .error (.commFailure (pyStr (errorMessageOf kvs))))
          else
            match dictGet kvs "result" with
            | none => (⟨some ()⟩, .ok (JVal.obj []))
            | some .null => (⟨some ()⟩, .ok (JVal.obj []))
            | some r => (⟨some ()⟩, .ok r)
        | _ => (⟨none⟩, .error (.commFailure attrErrMsg))) := by
  unfold normalExchange
  rw [hsend]
  simp only [Bool.not_true, Bool.false_eq_true, if_false, hrecv, hdec, hparse]

/-- A successful key lookup means the mapping is not empty. -/
theorem dictGet_ne_nil (kvs : List (String × JVal)) (k : String) (v : JVal)
    (h : dictGet kvs k = some v) : kvs.isEmpty = false := by
  cases kvs with
  | nil => simp [dictGet] at h
  | cons a rest => rfl

/-- The string-equality test succeeds only on that very string value. -/
theorem jIsStr_true (o : Option JVal) (t : String) (h : jIsStr o t = true) :
    o = some (.str t) := by
  match o with
  | none => simp [jIsStr] at h
  | some (.str s) => simp [jIsStr] at h; rw [h]
  | some .null | some (.bool _) | some (.num _) | some .nan | some (.infy _)
  | some (.arr _) | some (.obj _) => simp [jIsStr] at h

/-- C9: for a non-ping command whose parsed response mapping has status
success and no result field, send_command returns an empty mapping; and
for a response with status error, the raised failure wraps the error
field, falling back to the message field, falling back to the fixed
unknown-error string. -/
theorem C9_result_default_and_error_fallback :
    ∀ (st : SCState) (cmd : String) (env : SCEnv) (data : List Nat) (s : List Char)
      (kvs : List (String × JVal)),
      cmd ≠ "ping" → st.sock = some () → env.sendOk = true →
      receive_full_response env.schedule = .ok data →
      utf8Decode data = some s → json_loads s = some (.obj kvs) →
      ((jIsStr (dictGet kvs "status") "success" = true → dictGet kvs "result" = none →
          (send_command st cmd env).2 = .ok (JVal.obj [])) ∧
       (dictGet kvs "status" = some (.str "error") →
          ((∀ emsg, dictGet kvs "error" = some (.str emsg) → emsg ≠ "" →
              (send_command st cmd env).2 = .error (.commFailure emsg)) ∧
           (dictGet kvs "error" = none → ∀ m, dictGet kvs "message" = some (.str m) →
              (send_command st cmd env).2 = .error (.commFailure m)) ∧
           (dictGet kvs "error" = none → dictGet kvs "message" = none →
              (send_command st cmd env).2 = .error (.commFailure "Unknown Godot error"))))) := by
  intro st cmd env data s kvs hcmd hsock hsend hrecv hdec hparse
  rw [send_command_normal st cmd env hcmd hsock,
    normalExchange_eval env data s (.obj kvs) hsend hrecv hdec hparse]
  constructor
  · intro hst hres
    have hne := dictGet_ne_nil kvs "status" (.str "success") (jIsStr_true _ _ hst)
    have herr : jIsStr (dictGet kvs "status") "error" = false := by
      rw [jIsStr_true _ _ hst]; simp [jIsStr]
    simp [pyTruthy, hne, herr, hres]
  · intro hst
    have hne := dictGet_ne_nil kvs "status" (.str "error") hst
    have herr : jIsStr (dictGet kvs "status") "error" = true := by
      rw [hst]; simp [jIsStr]
    refine ⟨?_, ?_, ?_⟩
    · intro emsg he hemsg
      have hmsg : errorMessageOf kvs = .str emsg := by
        unfold errorMessageOf
        rw [he]
        simp [pyTruthy, hemsg]
      simp [pyTruthy, hne, herr, hmsg, pyStr]
    · intro he m hm
      have hmsg : errorMessageOf kvs = .str m := by
        unfold errorMessageOf
        rw [he, hm]
        simp [pyTruthy]
      simp [pyTruthy, hne, herr, hmsg, pyStr]
    · intro he hm
      have hmsg : errorMessageOf kvs = .str "Unknown Godot error" := by
        unfold errorMessageOf
        rw [he, hm]
        simp [pyTruthy]
      simp [pyTruthy, hne, herr, hmsg, pyStr]

/-- Response bytes of a success reply with no result field. -/
def succNoResultBytes : List Nat := asciiBytes "\x7b\"status\":\"success\"\x7d"

/-- Response bytes of an error reply whose error field is the string X. -/
def errXBytes : List Nat := asciiBytes "\x7b\"status\":\"error\",\"error\":\"X\"\x7d"

/-- C9 witness: a success reply with no result field yields the empty
mapping, and an error reply with error field X raises a failure wrapping
X; both through the claim theorem at concrete responses. -/
theorem C9_witness :
    (send_command ⟨some ()⟩ "GET_SCENE_INFO" ⟨true, true, [succNoResultBytes]⟩).2 =
      .ok (JVal.obj []) ∧
    (send_command ⟨some ()⟩ "GET_SCENE_INFO" ⟨true, true, [errXBytes]⟩).2 =
      .error (.commFailure "X") :=
  ⟨(C9_result_default_and_error_fallback ⟨some ()⟩ "GET_SCENE_INFO"
      ⟨true, true, [succNoResultBytes]⟩ succNoResultBytes
      ("\x7b\"status\":\"success\"\x7d".toList) [("status", .str "success")]
      (by decide) rfl rfl (by decide) rfl rfl).1 (by decide) rfl,
   ((C9_result_default_and_error_fallback ⟨some ()⟩ "GET_SCENE_INFO"
      ⟨true, true, [errXBytes]⟩ errXBytes
      ("\x7b\"status\":\"error\",\"error\":\"X\"\x7d".toList)
      [("status", .str "error"), ("error", .str "X")]
      (by decide) rfl rfl (by decide) rfl rfl).2 rfl).1 "X" rfl (by decide)⟩

/-- C10: for a non-ping command whose framed response bytes parse to a
falsy JSON value, send_command raises the invalid-JSON-response failure
even though the bytes are valid JSON; bytes that fail to parse instead
surface as a wrapped communication failure carrying the parser error, a
different message. -/
theorem C10_falsy_json_rejected :
    ∀ (st : SCState) (cmd : String) (env : SCEnv) (data : List Nat) (s : List Char),
      cmd ≠ "ping" → st.sock = some () → env.sendOk = true →
      receive_full_response env.schedule = .ok data →
      utf8Decode data = some s →
      ((∀ v, json_loads s = some v → pyTruthy v = false →
          send_command st cmd env = (⟨none⟩, .error (.commFailure invalidJsonMsg))) ∧
       (json_loads s = none →
          send_command st cmd env = (⟨none⟩, .error (.commFailure jsonErrMsg)) ∧
          jsonErrMsg ≠ invalidJsonMsg)) := by
  intro st cmd env data s hcmd hsock hsend hrecv hdec
  rw [send_command_normal st cmd env hcmd hsock]
  constructor
  · intro v hparse hfalsy
    rw [normalExchange_eval env data s v hsend hrecv hdec hparse]
    simp [hfalsy]
  · intro hparse
    refine ⟨?_, by decide⟩
    unfold normalExchange
    rw [hsend]
    simp only [Bool.not_true, Bool.false_eq_true, if_false, hrecv, hdec, hparse]

/-- Response bytes that are the single falsy JSON value zero. -/
def zeroRespBytes : List Nat := asciiBytes "0"

/-- C10 witness: a framed response of the falsy JSON value 0 raises the
invalid-JSON failure, and the pong-prefix bytes, which the framing layer
returns although they do not parse, raise the wrapped parser failure;
both through the claim theorem at concrete responses. -/
theorem C10_witness :
    send_command ⟨some ()⟩ "GET_SCENE_INFO" ⟨true, true, [zeroRespBytes]⟩ =
      (⟨none⟩, .error (.commFailure invalidJsonMsg)) ∧
    send_command ⟨some ()⟩ "GET_SCENE_INFO" ⟨true, true, [pongPrefixBytes]⟩ =
      (⟨none⟩, .error (.commFailure jsonErrMsg)) :=
  ⟨(C10_falsy_json_rejected ⟨some ()⟩ "GET_SCENE_INFO" ⟨true, true, [zeroRespBytes]⟩
      zeroRespBytes ("0".toList) (by decide) rfl rfl (by decide) rfl).1
      (.num 0) rfl rfl,
   ((C10_falsy_json_rejected ⟨some ()⟩ "GET_SCENE_INFO" ⟨true, true, [pongPrefixBytes]⟩
      pongPrefixBytes pongLit (by decide) rfl rfl (by decide) rfl).2 rfl).1⟩

/-- A poll schedule that reports SUCCEEDED at once with a glb artifact. -/
def pollsSucceededU : Nat → PollResp := fun _ => ⟨200, some "SUCCEEDED", [("glb", "u")], none⟩

/-- C6: on a creation response carrying no task identifier, the text and
image generators stop with the fatal no-task-id error before any polling,
but the refinement path has no such check and enters the poll loop with
the absent identifier, here even completing with the first poll response. -/
theorem C6_refine_misses_task_id_check :
    generate_mesh_from_text (some "key") ⟨200, none⟩ pollsSucceededU = .noTaskId ∧
    generate_mesh_from_image (some "key") ⟨200, none⟩ pollsSucceededU = .noTaskId ∧
    refine_generated_mesh (some "key") ⟨200, none⟩ pollsSucceededU = .success "u" := by
  refine ⟨rfl, rfl, ?_⟩
  show refinePollLoop pollsSucceededU (meshy_timeout * 2) 0 0 = .success "u"
  unfold refinePollLoop
  simp [pollsSucceededU, chooseUrl, lookupStr, pyOrS, meshy_timeout]

/-- If every poll reports HTTP 200 with a status of PENDING or IN_PROGRESS,
the text poll loop reaches the ceiling and returns the timeout outcome. -/
theorem textPollLoop_pending (polls : Nat → PollResp)
    (hp : ∀ j, (polls j).httpStatus = 200 ∧
        ((polls j).status = some "PENDING" ∨ (polls j).status = some "IN_PROGRESS")) :
    ∀ (maxWait n i elapsed : Nat), maxWait - elapsed ≤ n →
      textPollLoop polls maxWait i elapsed = .timeout maxWait := by
  intro maxWait n
  induction n with
  | zero =>
    intro i elapsed hle
    unfold textPollLoop
    rw [dif_neg (by omega)]
  | succ n ih =>
    intro i elapsed hle
    unfold textPollLoop
    by_cases hlt : elapsed < maxWait
    · rw [dif_pos hlt]
      obtain ⟨h200, hst⟩ := hp i
      have hge : ¬ 400 ≤ (polls i).httpStatus := by rw [h200]; omega
      rcases hst with hs | hs <;>
        simp only [hge, if_false, hs] <;>
        exact ih (i + 1) (elapsed + 5) (by omega)
    · rw [dif_neg hlt]

/-- If every poll reports HTTP 200 with a status of PENDING or IN_PROGRESS,
the refinement poll loop reaches its ceiling and returns the timeout
outcome. -/
theorem refinePollLoop_pending (polls : Nat → PollResp)
    (hp : ∀ j, (polls j).httpStatus = 200 ∧
        ((polls j).status = some "PENDING" ∨ (polls j).status = some "IN_PROGRESS")) :
    ∀ (maxWait n i elapsed : Nat), maxWait - elapsed ≤ n →
      refinePollLoop polls maxWait i elapsed = .timeout maxWait := by
  intro maxWait n
  induction n with
  | zero =>
    intro i elapsed hle
    unfold refinePollLoop
    rw [dif_neg (by omega)]
  | succ n ih =>
    intro i elapsed hle
    unfold refinePollLoop
    by_cases hlt : elapsed < maxWait
    · rw [dif_pos hlt]
      obtain ⟨h200, hst⟩ := hp i
      have hne : ¬ (polls i).httpStatus ≠ 200 := by rw [h200]; omega
      rcases hst with hs | hs <;>
        simp only [hne, if_false, hs] <;>
        exact ih (i + 1) (elapsed + 20) (by omega)
    · rw [dif_neg hlt]

/-- The text poll loop consults only polls issued strictly before the
ceiling: two schedules that agree on every index j with 5 j below the
ceiling produce the same outcome when the loop starts at poll i with
elapsed 5 i. -/
theorem textPollLoop_congr (polls polls2 : Nat → PollResp) (maxWait : Nat)
    (hagree : ∀ j, 5 * j < maxWait → polls j = polls2 j) :
    ∀ (n i : Nat), maxWait - 5 * i ≤ n →
      textPollLoop polls maxWait i (5 * i) = textPollLoop polls2 maxWait i (5 * i) := by
  intro n
  induction n with
  | zero =>
    intro i hle
    unfold textPollLoop
    rw [dif_neg (by omega), dif_neg (by omega)]
  | succ n ih =>
    intro i hle
    unfold textPollLoop
    by_cases hlt : 5 * i < maxWait
    · rw [dif_pos hlt, dif_pos hlt, hagree i hlt]
      have harith : 5 * (i + 1) = 5 * i + 5 := by omega
      have hih : textPollLoop polls maxWait (i + 1) (5 * i + 5) =
          textPollLoop polls2 maxWait (i + 1) (5 * i + 5) := by
        rw [← harith]; exact ih (i + 1) (by omega)
      cases hst : (polls2 i).status with
      | none => simp only [hst]
      | some s =>
        by_cases h1 : s = "SUCCEEDED"
        · subst h1; simp only [hst]
        · by_cases h2 : s = "FAILED"
          · subst h2; simp only [hst]
          · by_cases h3 : s = "PENDING"
            · subst h3
              simp only [hst]
              rw [hih]
            · by_cases h4 : s = "IN_PROGRESS"
              · subst h4
                simp only [hst]
                rw [hih]
              · simp only [hst]
                simp [h1, h2, h3, h4]
    · rw [dif_neg hlt, dif_neg hlt]

/-- C7: with the remote status remaining PENDING or IN_PROGRESS, the text
generation poller ends in the timeout outcome at the configured ceiling
and the refinement poller at double that ceiling; the text loop consults
no poll beyond the ceiling (its outcome is unchanged by any poll whose
start time would lie at or past it); and the refinement ceiling is
strictly longer than the generation ceiling. -/
theorem C7_poll_ceiling :
    (∀ (apiKey : Option String) (create : CreateResp) (polls : Nat → PollResp) (tid : String),
      apiKeyFalsy apiKey = false → create.httpStatus < 400 →
      create.result = some tid → tid ≠ "" →
      (∀ j, (polls j).httpStatus = 200 ∧
          ((polls j).status = some "PENDING" ∨ (polls j).status = some "IN_PROGRESS")) →
      generate_mesh_from_text apiKey create polls = .timeout meshy_timeout) ∧
    (∀ (apiKey : Option String) (create : CreateResp) (polls : Nat → PollResp),
      apiKeyFalsy apiKey = false → create.httpStatus = 200 →
      (∀ j, (polls j).httpStatus = 200 ∧
          ((polls j).status = some "PENDING" ∨ (polls j).status = some "IN_PROGRESS")) →
      refine_generated_mesh apiKey create polls = .timeout (meshy_timeout * 2)) ∧
    (∀ (polls polls2 : Nat → PollResp) (maxWait : Nat),
      (∀ j, 5 * j < maxWait → polls j = polls2 j) →
      textPollLoop polls maxWait 0 0 = textPollLoop polls2 maxWait 0 0) ∧
    meshy_timeout < meshy_timeout * 2 := by
  refine ⟨?_, ?_, ?_, by decide⟩
  · intro apiKey create polls tid hkey hhttp hres htid hp
    unfold generate_mesh_from_text
    rw [hkey]
    simp only [Bool.false_eq_true, if_false]
    rw [if_neg (by omega), hres]
    simp only []
    rw [if_neg htid]
    exact textPollLoop_pending polls hp meshy_timeout meshy_timeout 0 0 (by omega)
  · intro apiKey create polls hkey hhttp hp
    unfold refine_generated_mesh
    rw [hkey]
    simp only [Bool.false_eq_true, if_false, hhttp]
    rw [if_neg (by decide)]
    exact refinePollLoop_pending polls hp (meshy_timeout * 2) (meshy_timeout * 2) 0 0 (by omega)
  · intro polls polls2 maxWait hagree
    have h0 : (0 : Nat) = 5 * 0 := by omega
    rw [h0]
    exact textPollLoop_congr polls polls2 maxWait hagree (maxWait - 5 * 0) 0 le_rfl

/-- A poll schedule that always reports IN_PROGRESS over HTTP 200. -/
def pollsInProgress : Nat → PollResp := fun _ => ⟨200, some "IN_PROGRESS", [], none⟩

/-- C7 witness: with status IN_PROGRESS on every poll, text generation
times out at 300 seconds and refinement at 600, through the claim
theorem at a concrete schedule. -/
theorem C7_witness :
    generate_mesh_from_text (some "key") ⟨200, some "tid"⟩ pollsInProgress =
      .timeout meshy_timeout ∧
    refine_generated_mesh (some "key") ⟨200, some "tid"⟩ pollsInProgress =
      .timeout (meshy_timeout * 2) :=
  ⟨C7_poll_ceiling.1 (some "key") ⟨200, some "tid"⟩ pollsInProgress "tid"
      rfl (by decide) rfl (by decide) (fun j => ⟨rfl, Or.inr rfl⟩),
   C7_poll_ceiling.2.1 (some "key") ⟨200, some "tid"⟩ pollsInProgress
      rfl rfl (fun j => ⟨rfl, Or.inr rfl⟩)⟩

/-- A falsy first operand makes the Python or take the second. -/
theorem pyOrS_falsy (a b : Option String) (h : a = none ∨ a = some "") :
    pyOrS a b = b := by
  rcases h with h | h <;> rw [h] <;> simp [pyOrS]

/-- A successful lookup means the mapping is not empty. -/
theorem lookupStr_ne_nil (kvs : List (String × String)) (k v : String)
    (h : lookupStr kvs k = some v) : kvs.isEmpty = false := by
  cases kvs with
  | nil => simp [lookupStr] at h
  | cons a rest => rfl

/-- On a first poll that reports SUCCEEDED over HTTP, the text poll loop
finishes with the artifact classification of the SUCCEEDED branch. -/
theorem textPollLoop_succeeded_first (polls : Nat → PollResp) (mw : Nat) (hmw : 0 < mw)
    (h200 : ¬ 400 ≤ (polls 0).httpStatus) (hst : (polls 0).status = some "SUCCEEDED") :
    textPollLoop polls mw 0 0 =
      (if (polls 0).modelUrls.isEmpty then .noModelUrls
       else
        match chooseUrl (polls 0).modelUrls with
        | none => .noSupportedFormat
        | some u => if u = "" then .noSupportedFormat else .success u) := by
  unfold textPollLoop
  rw [dif_pos hmw]
  simp only [h200, if_false, hst]

/-- Text generation with key, creation and task id in order runs the poll
loop at the configured ceiling. -/
theorem generate_text_to_loop (apiKey : Option String) (create : CreateResp)
    (polls : Nat → PollResp) (tid : String) (hkey : apiKeyFalsy apiKey = false)
    (hhttp : create.httpStatus < 400) (hres : create.result = some tid) (htid : tid ≠ "") :
    generate_mesh_from_text apiKey create polls = textPollLoop polls meshy_timeout 0 0 := by
  unfold generate_mesh_from_text
  rw [hkey]
  simp only [Bool.false_eq_true, if_false]
  rw [if_neg (by omega), hres]
  simp only []
  rw [if_neg htid]

/-- C8: when the first poll reports SUCCEEDED, the artifact is chosen with
the fixed priority glb then fbx then obj from model_urls: a truthy glb
entry wins, otherwise a truthy fbx entry, otherwise a truthy obj entry (so
with only obj present, obj is used); and when no known format is truthy,
including the empty mapping, the outcome is one of the two fatal
no-usable-artifact errors even though the task succeeded. -/
theorem C8_artifact_priority :
    ∀ (apiKey : Option String) (create : CreateResp) (polls : Nat → PollResp) (tid : String),
      apiKeyFalsy apiKey = false → create.httpStatus < 400 →
      create.result = some tid → tid ≠ "" →
      (polls 0).httpStatus = 200 → (polls 0).status = some "SUCCEEDED" →
      ((∀ u, lookupStr (polls 0).modelUrls "glb" = some u → u ≠ "" →
          generate_mesh_from_text apiKey create polls = .success u) ∧
       ((lookupStr (polls 0).modelUrls "glb" = none ∨
           lookupStr (polls 0).modelUrls "glb" = some "") →
        ∀ u, lookupStr (polls 0).modelUrls "fbx" = some u → u ≠ "" →
          generate_mesh_from_text apiKey create polls = .success u) ∧
       ((lookupStr (polls 0).modelUrls "glb" = none ∨
           lookupStr (polls 0).modelUrls "glb" = some "") →
        (lookupStr (polls 0).modelUrls "fbx" = none ∨
           lookupStr (polls 0).modelUrls "fbx" = some "") →
        ∀ u, lookupStr (polls 0).modelUrls "obj" = some u → u ≠ "" →
          generate_mesh_from_text apiKey create polls = .success u) ∧
       ((lookupStr (polls 0).modelUrls "glb" = none ∨
           lookupStr (polls 0).modelUrls "glb" = some "") →
        (lookupStr (polls 0).modelUrls "fbx" = none ∨
           lookupStr (polls 0).modelUrls "fbx" = some "") →
        (lookupStr (polls 0).modelUrls "obj" = none ∨
           lookupStr (polls 0).modelUrls "obj" = some "") →
          generate_mesh_from_text apiKey create polls = .noModelUrls ∨
          generate_mesh_from_text apiKey create polls = .noSupportedFormat) ∧
       ((polls 0).modelUrls = [] →
          generate_mesh_from_text apiKey create polls = .noModelUrls)) := by
  intro apiKey create polls tid hkey hhttp hres htid h200 hst
  have hloop := generate_text_to_loop apiKey create polls tid hkey hhttp hres htid
  have hsucc := textPollLoop_succeeded_first polls meshy_timeout (by decide)
    (by rw [h200]; omega) hst
  rw [hloop, hsucc]
  refine ⟨?_, ?_, ?_, ?_, ?_⟩
  · intro u hglb hu
    rw [if_neg (by simp [lookupStr_ne_nil _ _ _ hglb])]
    unfold chooseUrl
    rw [hglb]
    simp only [pyOrS, if_neg hu]
  · intro hglb u hfbx hu
    rw [if_neg (by simp [lookupStr_ne_nil _ _ _ hfbx])]
    unfold chooseUrl
    rw [pyOrS_falsy _ _ hglb, hfbx]
    simp only [pyOrS, if_neg hu]
  · intro hglb hfbx u hobj hu
    rw [if_neg (by simp [lookupStr_ne_nil _ _ _ hobj])]
    unfold chooseUrl
    rw [pyOrS_falsy _ _ hglb, pyOrS_falsy _ _ hfbx, hobj]
    simp [hu]
  · intro hglb hfbx hobj
    by_cases hemp : (polls 0).modelUrls.isEmpty
    · left; rw [if_pos hemp]
    · right
      rw [if_neg hemp]
      unfold chooseUrl
      rw [pyOrS_falsy _ _ hglb, pyOrS_falsy _ _ hfbx]
      rcases hobj with h | h <;> simp [h]
  · intro hemp
    rw [if_pos (by rw [hemp]; rfl)]

/-- A poll schedule succeeding with only an obj artifact. -/
def pollsObjOnly : Nat → PollResp := fun _ => ⟨200, some "SUCCEEDED", [("obj", "u")], none⟩

/-- A poll schedule succeeding with an empty model_urls mapping. -/
def pollsNoUrls : Nat → PollResp := fun _ => ⟨200, some "SUCCEEDED", [], none⟩

/-- C8 witness: with only obj present the obj URL is used, and with an
empty model_urls mapping the outcome is the fatal no-model-urls error;
both through the claim theorem at concrete schedules. -/
theorem C8_witness :
    generate_mesh_from_text (some "key") ⟨200, some "tid"⟩ pollsObjOnly = .success "u" ∧
    generate_mesh_from_text (some "key") ⟨200, some "tid"⟩ pollsNoUrls = .noModelUrls :=
  ⟨(C8_artifact_priority (some "key") ⟨200, some "tid"⟩ pollsObjOnly "tid"
      rfl (by decide) rfl (by decide) rfl rfl).2.2.1 (Or.inl rfl) (Or.inl rfl)
      "u" rfl (by decide),
   (C8_artifact_priority (some "key") ⟨200, some "tid"⟩ pollsNoUrls "tid"
      rfl (by decide) rfl (by decide) rfl rfl).2.2.2.2 rfl⟩
